import Mathlib

/-!
Verification development for the resize engine of sway
(src/sway/commands/resize.c).

The C source is shallowly embedded as follows:
- the container tree is an arena (`Arena`): a list of `Container` records
  addressed by stable indices, plus the owning workspace; pointer fields
  (`parent`) become `Option Nat` indices;
- pixel geometry fields (`width`, `height`, `x`, `y`, `content_*`) are `Int`
  (the spec data model declares them integers);
- the `double` fraction fields (`width_fraction`, `height_fraction`) are
  modelled as exact rationals `ℚ`;
- C integer division (which truncates toward zero) is `Int.tdiv`;
- the external collaborators (sibling lists, arrange, floating constraints)
  are modelled from the spec, as noted on each definition;
- upward tree walks (C `while` loops over `parent` pointers) take a fuel
  argument, instantiated with `A.cons.length + 1`, which is enough for any
  acyclic parent chain.
-/

namespace SwayResize

/-- Embedding of `enum resize_unit`. -/
inductive ResizeUnit
  | px
  | ppt
  | default
  | invalid
deriving DecidableEq, Repr

/-- Embedding of `struct resize_amount`. -/
structure ResizeAmount where
  amount : Int
  unit : ResizeUnit
deriving DecidableEq, Repr

/-- ASCII lower-casing of one character, as used by `strcasecmp`. -/
def lowerChar (c : Char) : Char :=
  if 'A' ≤ c ∧ c ≤ 'Z' then Char.ofNat (c.toNat + 32) else c

/-- Case-insensitive string equality: `strcasecmp(s, t) == 0`. -/
def strcaseEq (s t : String) : Bool :=
  s.data.map lowerChar = t.data.map lowerChar

/-- Embedding of `parse_resize_unit`. -/
def parse_resize_unit (u : String) : ResizeUnit :=
  if strcaseEq u "px" then ResizeUnit.px
  else if strcaseEq u "ppt" then ResizeUnit.ppt
  else if strcaseEq u "default" then ResizeUnit.default
  else ResizeUnit.invalid

/-- Whitespace recognised by `strtol` (C `isspace` in the default locale). -/
def isSpaceChar (c : Char) : Bool :=
  c = ' ' ∨ c = '\t' ∨ c = '\n' ∨ c = '\x0b' ∨ c = '\x0c' ∨ c = '\r'

/-- Decimal digit test. -/
def isDigitChar (c : Char) : Bool :=
  '0' ≤ c ∧ c ≤ '9'

/-- Value of a list of decimal digits. -/
def digitsToInt (ds : List Char) : Int :=
  ds.foldl (fun a c => a * 10 + (Int.ofNat c.toNat - Int.ofNat '0'.toNat)) 0

/-- Embedding of `strtol(s, &err, 10)`: returns the parsed value and the
remaining characters (the position of `err`).  When no digits can be
consumed the value is 0 and `err` is the original string. -/
def strtol10 (s : List Char) : Int × List Char :=
  let s1 := s.dropWhile isSpaceChar
  let signAndRest : Bool × List Char :=
    match s1 with
    | '-' :: r => (true, r)
    | '+' :: r => (false, r)
    | _ => (false, s1)
  let ds := signAndRest.2.takeWhile isDigitChar
  let rest := signAndRest.2.dropWhile isDigitChar
  if ds = [] then (0, s)
  else (if signAndRest.1 then -digitsToInt ds else digitsToInt ds, rest)

/-- Embedding of `parse_resize_amount`: parses one or two argument tokens
into a `ResizeAmount` and returns the number of tokens consumed. -/
def parse_resize_amount (args : List String) : ResizeAmount × Nat :=
  let a0 := (args.getD 0 "").data
  let pr := strtol10 a0
  if pr.2 ≠ [] then
    ({ amount := pr.1, unit := parse_resize_unit (String.mk pr.2) }, 1)
  else if args.length = 1 then
    ({ amount := pr.1, unit := ResizeUnit.default }, 1)
  else
    let u := parse_resize_unit (args.getD 1 "")
    if u = ResizeUnit.invalid then
      ({ amount := pr.1, unit := ResizeUnit.default }, 1)
    else
      ({ amount := pr.1, unit := u }, 2)

/-- Bit value of `WLR_EDGE_NONE`. -/
def WLR_EDGE_NONE : Nat := 0

/-- Bit value of `WLR_EDGE_TOP`. -/
def WLR_EDGE_TOP : Nat := 1

/-- Bit value of `WLR_EDGE_BOTTOM`. -/
def WLR_EDGE_BOTTOM : Nat := 2

/-- Bit value of `WLR_EDGE_LEFT`. -/
def WLR_EDGE_LEFT : Nat := 4

/-- Bit value of `WLR_EDGE_RIGHT`. -/
def WLR_EDGE_RIGHT : Nat := 8

/-- Embedding of the macro `AXIS_HORIZONTAL = WLR_EDGE_LEFT | WLR_EDGE_RIGHT`. -/
def AXIS_HORIZONTAL : Nat := WLR_EDGE_LEFT ||| WLR_EDGE_RIGHT

/-- Embedding of the macro `AXIS_VERTICAL = WLR_EDGE_TOP | WLR_EDGE_BOTTOM`. -/
def AXIS_VERTICAL : Nat := WLR_EDGE_TOP ||| WLR_EDGE_BOTTOM

/-- Embedding of `parse_resize_axis`. -/
def parse_resize_axis (s : String) : Nat :=
  if strcaseEq s "width" ∨ strcaseEq s "horizontal" then AXIS_HORIZONTAL
  else if strcaseEq s "height" ∨ strcaseEq s "vertical" then AXIS_VERTICAL
  else if strcaseEq s "up" then WLR_EDGE_TOP
  else if strcaseEq s "down" then WLR_EDGE_BOTTOM
  else if strcaseEq s "left" then WLR_EDGE_LEFT
  else if strcaseEq s "right" then WLR_EDGE_RIGHT
  else WLR_EDGE_NONE

/-- Embedding of `is_horizontal`: tests the axis against the horizontal bits. -/
def is_horizontal (axis : Nat) : Bool :=
  axis &&& (WLR_EDGE_LEFT ||| WLR_EDGE_RIGHT) ≠ 0

/-- Container layouts relevant to the resize engine (`L_HORIZ`, `L_VERT`,
every other layout collapsed to `L_NONE`). -/
inductive SwayLayout
  | L_HORIZ
  | L_VERT
  | L_NONE
deriving DecidableEq, Repr

/-- Tree node of the container arena.  Fields are the ones the resize engine
reads and writes; `parent` and `children` are arena indices.  `floating` and
`scratchpad_hidden` record the answers of the external predicates
`container_is_floating` and `container_is_scratchpad_hidden`. -/
structure Container where
  parent : Option Nat := none
  children : List Nat := []
  layout : SwayLayout := SwayLayout.L_NONE
  width : Int := 0
  height : Int := 0
  width_fraction : ℚ := 0
  height_fraction : ℚ := 0
  x : Int := 0
  y : Int := 0
  content_x : Int := 0
  content_y : Int := 0
  content_width : Int := 0
  content_height : Int := 0
  floating : Bool := false
  scratchpad_hidden : Bool := false
deriving DecidableEq, Repr

instance : Inhabited Container := ⟨{}⟩

/-- Workspace owning the top-level containers of the arena.  Resize commands
are workspace-local, so the arena models the tree of a single workspace. -/
structure SwayWorkspace where
  width : Int := 0
  height : Int := 0
  layout : SwayLayout := SwayLayout.L_NONE
  tiling : List Nat := []
deriving DecidableEq, Repr

/-- Arena holding the container tree: containers addressed by index, plus
the owning workspace. -/
structure Arena where
  cons : List Container
  ws : SwayWorkspace
deriving DecidableEq, Repr

/-- Container lookup by arena index. -/
def getCon (A : Arena) (i : Nat) : Container :=
  A.cons.getD i default

/-- In-place mutation of the container at index `i`. -/
def updateCon (A : Arena) (i : Nat) (g : Container → Container) : Arena :=
  { A with cons := A.cons.set i (g (A.cons.getD i default)) }

/-- Modelled from the spec: collaborator `get_siblings(container)` — the
ordered child list of the parent, or the workspace tiling list for a
top-level container. -/
def container_get_siblings (A : Arena) (i : Nat) : List Nat :=
  match (getCon A i).parent with
  | some p => (getCon A p).children
  | none => A.ws.tiling

/-- Modelled from the spec: collaborator `sibling_index(container)` — the
position of the container in its sibling list. -/
def container_sibling_index (A : Arena) (i : Nat) : Nat :=
  (container_get_siblings A i).indexOf i

/-- Modelled from the spec: collaborator `parent_layout(container)` — the
layout of the parent, or of the workspace for a top-level container. -/
def container_parent_layout (A : Arena) (i : Nat) : SwayLayout :=
  match (getCon A i).parent with
  | some p => (getCon A p).layout
  | none => A.ws.layout

/-- Modelled from the spec: collaborator `is_floating(container)`. -/
def container_is_floating (A : Arena) (i : Nat) : Bool :=
  (getCon A i).floating

/-- Modelled from the spec: collaborator `is_scratchpad_hidden(container)`. -/
def container_is_scratchpad_hidden (A : Arena) (i : Nat) : Bool :=
  (getCon A i).scratchpad_hidden

/-- Modelled from the spec: `arrange_container` is the external
re-arrangement collaborator; it does not change the fields this engine
owns, so it is the identity on the arena. -/
def arrange_container (A : Arena) (_i : Nat) : Arena := A

/-- Modelled from the spec: `arrange_workspace`, external like
`arrange_container`. -/
def arrange_workspace (A : Arena) : Arena := A

/-- Tail of `container_resize_tiled` (lines 207-211): arrange the parent of
the mutated container, or its workspace for a top-level container.  Both
collaborators are external and leave the arena unchanged. -/
def arrangeAfter (A : Arena) (con : Nat) : Arena :=
  match (getCon A con).parent with
  | some p => arrange_container A p
  | none => arrange_workspace A

/-- Embedding of `MIN_SANE_W`. -/
def MIN_SANE_W : Int := 100

/-- Embedding of `MIN_SANE_H`. -/
def MIN_SANE_H : Int := 60

/-- Loop body of `container_find_resize_parent`, with fuel for the upward
walk.  The condition is the exact conjunction tested by the C loop, with
`allow_first` and `allow_last` inlined. -/
def findResizeParentAux (A : Arena) (axis : Nat) : Nat → Option Nat → Option Nat
  | 0, _ => none
  | _ + 1, none => none
  | fuel + 1, some j =>
    if container_parent_layout A j
          = (if is_horizontal axis then SwayLayout.L_HORIZ else SwayLayout.L_VERT)
        ∧ 1 < (container_get_siblings A j).length
        ∧ ((axis ≠ WLR_EDGE_TOP ∧ axis ≠ WLR_EDGE_LEFT)
            ∨ 0 < container_sibling_index A j)
        ∧ ((axis ≠ WLR_EDGE_RIGHT ∧ axis ≠ WLR_EDGE_BOTTOM)
            ∨ container_sibling_index A j < (container_get_siblings A j).length - 1)
    then some j
    else findResizeParentAux A axis fuel (getCon A j).parent

/-- Embedding of `container_find_resize_parent`. -/
def container_find_resize_parent (A : Arena) (c0 : Nat) (axis : Nat) : Option Nat :=
  findResizeParentAux A axis (A.cons.length + 1) (some c0)

/-- Chain of ancestors (start included) reached by following `parent`
pointers, cut off by the same fuel as `findResizeParentAux`. -/
def ancestorChain (A : Arena) : Nat → Option Nat → List Nat
  | 0, _ => []
  | _ + 1, none => []
  | fuel + 1, some j => j :: ancestorChain A fuel (getCon A j).parent

/-- Qualification predicate of the resize-parent locator, phrased as the
claim states it: parent layout parallel to the axis, more than one sibling,
not the first sibling exactly when the axis is Top or Left, not the last
sibling exactly when the axis is Bottom or Right. -/
def qualifiesSpec (A : Arena) (axis : Nat) (j : Nat) : Prop :=
  container_parent_layout A j
      = (if is_horizontal axis then SwayLayout.L_HORIZ else SwayLayout.L_VERT)
  ∧ 1 < (container_get_siblings A j).length
  ∧ ((axis = WLR_EDGE_TOP ∨ axis = WLR_EDGE_LEFT)
      → 0 < container_sibling_index A j)
  ∧ ((axis = WLR_EDGE_RIGHT ∨ axis = WLR_EDGE_BOTTOM)
      → container_sibling_index A j < (container_get_siblings A j).length - 1)

instance (A : Arena) (axis j : Nat) : Decidable (qualifiesSpec A axis j) := by
  unfold qualifiesSpec; infer_instance

/-- Amount absorbed by each selected sibling:
`int sibling_amount = prev ? amount / 2 : amount;` (C division truncates). -/
def siblingAmount (prev : Option Nat) (amount : Int) : Int :=
  match prev with
  | some _ => Int.tdiv amount 2
  | none => amount

/-- Sibling-selection block of `container_resize_tiled` (lines 128-162):
given the sibling list, the index of the resolved container `c1` in it, the
axis and the amount, returns `(con, prev, next, amount)` after the
edge-to-canonical-direction conversion, or `none` when a `sway_assert`
fails (the C function then returns without mutating). -/
def resizeTiledSelect (siblings : List Nat) (index : Nat) (c1 : Nat)
    (axis : Nat) (amount : Int) : Option (Nat × Option Nat × Nat × Int) :=
  if axis = AXIS_HORIZONTAL ∨ axis = AXIS_VERTICAL then
    if index = 0 then
      some (c1, none, siblings.getD 1 0, amount)
    else if index = siblings.length - 1 then
      some (siblings.getD (index - 1) 0, none, c1, -amount)
    else
      some (c1, some (siblings.getD (index - 1) 0), siblings.getD (index + 1) 0, amount)
  else if axis = WLR_EDGE_TOP ∨ axis = WLR_EDGE_LEFT then
    if 0 < index then some (siblings.getD (index - 1) 0, none, c1, -amount)
    else none
  else
    if index < siblings.length - 1 then
      some (c1, none, siblings.getD (index + 1) 0, amount)
    else none

/-- Application block of `container_resize_tiled` (lines 164-212): min-size
checks followed by the three fraction updates.  The second and third update
read the fraction of `con` after the first update wrote it, exactly as the
C statements do. -/
def resizeTiledApply (A : Arena) (axis : Nat)
    (sel : Nat × Option Nat × Nat × Int) : Arena :=
  let con := sel.1
  let prev := sel.2.1
  let next := sel.2.2.1
  let amt := sel.2.2.2
  let s := siblingAmount prev amt
  if is_horizontal axis then
    let w := (getCon A con).width
    if w + amt < MIN_SANE_W then A
    else if (getCon A next).width - s < MIN_SANE_W then A
    else if (match prev with
             | some p => decide ((getCon A p).width - s < MIN_SANE_W)
             | none => false) = true then A
    else
      let A1 := updateCon A con (fun c =>
        { c with width_fraction :=
            c.width_fraction + ((amt : ℚ) / (w : ℚ)) * c.width_fraction })
      let A2 := updateCon A1 next (fun c =>
        { c with width_fraction :=
            c.width_fraction - ((s : ℚ) / (w : ℚ)) * (getCon A1 con).width_fraction })
      let A3 := match prev with
        | some p => updateCon A2 p (fun c =>
            { c with width_fraction :=
                c.width_fraction - ((s : ℚ) / (w : ℚ)) * (getCon A2 con).width_fraction })
        | none => A2
      arrangeAfter A3 con
  else
    let h := (getCon A con).height
    if h + amt < MIN_SANE_H then A
    else if (getCon A next).height - s < MIN_SANE_H then A
    else if (match prev with
             | some p => decide ((getCon A p).height - s < MIN_SANE_H)
             | none => false) = true then A
    else
      let A1 := updateCon A con (fun c =>
        { c with height_fraction :=
            c.height_fraction + ((amt : ℚ) / (h : ℚ)) * c.height_fraction })
      let A2 := updateCon A1 next (fun c =>
        { c with height_fraction :=
            c.height_fraction - ((s : ℚ) / (h : ℚ)) * (getCon A1 con).height_fraction })
      let A3 := match prev with
        | some p => updateCon A2 p (fun c =>
            { c with height_fraction :=
                c.height_fraction - ((s : ℚ) / (h : ℚ)) * (getCon A2 con).height_fraction })
        | none => A2
      arrangeAfter A3 con

/-- Embedding of `container_resize_tiled`.  The `Option Nat` argument is the
possibly-NULL container pointer. -/
def container_resize_tiled (A : Arena) (con0 : Option Nat) (axis : Nat)
    (amount : Int) : Arena :=
  match con0 with
  | none => A
  | some c0 =>
    match container_find_resize_parent A c0 axis with
    | none => A
    | some c1 =>
      match resizeTiledSelect (container_get_siblings A c1)
          (container_sibling_index A c1) c1 axis amount with
      | none => A
      | some sel => resizeTiledApply A axis sel

/-- Sum of the `width_fraction` values of the containers in a list. -/
def sumWF (A : Arena) (l : List Nat) : ℚ :=
  (l.map (fun j => (getCon A j).width_fraction)).sum

/-- Result statuses of `struct cmd_results`: `CMD_SUCCESS`, `CMD_INVALID`
(invalid usage) and `CMD_FAILURE`. -/
inductive CmdStatus
  | success
  | invalid
  | failure
deriving DecidableEq, Repr

/-- Embedding of `struct cmd_results`: a status plus the optional message of
`cmd_results_new`. -/
structure CmdResults where
  status : CmdStatus
  message : Option String
deriving DecidableEq, Repr

/-- Modelled from the spec: the four outputs of the external collaborator
`floating_calculate_constraints`, taken as parameters. -/
structure FloatingConstraints where
  min_width : Int
  max_width : Int
  min_height : Int
  max_height : Int
deriving DecidableEq, Repr

/-- Clamping block of `resize_adjust_floating` (lines 220-241): the raw
single-axis growth, clamped so the resulting size stays inside the
constraints.  Returns `(grow_width, grow_height)`. -/
def floatingGrow (con : Container) (cns : FloatingConstraints) (axis : Nat)
    (amount : Int) : Int × Int :=
  let gw0 := if is_horizontal axis then amount else 0
  let gh0 := if is_horizontal axis then 0 else amount
  let gw :=
    if con.width + gw0 < cns.min_width then cns.min_width - con.width
    else if con.width + gw0 > cns.max_width then cns.max_width - con.width
    else gw0
  let gh :=
    if con.height + gh0 < cns.min_height then cns.min_height - con.height
    else if con.height + gh0 > cns.max_height then cns.max_height - con.height
    else gh0
  (gw, gh)

/-- Origin shift of `resize_adjust_floating` (lines 242-252): `grow_x` and
`grow_y` as functions of the axis and the clamped growth.  Both remain 0
for the Right and Bottom edges, which no branch assigns. -/
def floatingGrowOrigin (axis : Nat) (gw gh : Int) : Int × Int :=
  if axis = AXIS_HORIZONTAL then (Int.tdiv (-gw) 2, 0)
  else if axis = AXIS_VERTICAL then (0, Int.tdiv (-gh) 2)
  else if axis = WLR_EDGE_TOP then (0, -gh)
  else if axis = WLR_EDGE_LEFT then (-gw, 0)
  else (0, 0)

/-- Embedding of `resize_adjust_floating`.  The handler-context container is
the index `i`; the floating constraints are a parameter. -/
def resize_adjust_floating (A : Arena) (i : Nat) (cns : FloatingConstraints)
    (axis : Nat) (am : ResizeAmount) : CmdResults × Arena :=
  let g := floatingGrow (getCon A i) cns axis am.amount
  let o := floatingGrowOrigin axis g.1 g.2
  if o.1 = 0 ∧ o.2 = 0 then
    ({ status := CmdStatus.invalid, message := some "Cannot resize any further" }, A)
  else
    let A1 := updateCon A i (fun c =>
      { c with
        x := c.x + o.1
        y := c.y + o.2
        width := c.width + g.1
        height := c.height + g.2
        content_x := c.content_x + o.1
        content_y := c.content_y + o.2
        content_width := c.content_width + g.1
        content_height := c.content_height + g.2 })
    ({ status := CmdStatus.success, message := none }, arrange_container A1 i)

/-- Truncation of a rational toward zero, the conversion C applies when a
floating-point value is assigned to an `int`. -/
def ratTrunc (q : ℚ) : Int :=
  Int.tdiv q.num (q.den : Int)

/-- Percentage-to-pixel conversion of `resize_adjust_tiled` (lines 281-289):
`amount / 100` of the given dimension of the target container itself.  The
C code computes this in single-precision float; it is modelled in exact
rational arithmetic, truncated toward zero on assignment back to the
`int` amount. -/
def pptToPx (dim : Int) (amount : Int) : Int :=
  ratTrunc ((dim : ℚ) * ((amount : ℚ) / 100))

/-- Core of `resize_adjust_tiled` after unit conversion (lines 291-298):
runs the redistributor and reports failure when the fractions of the
target container did not move. -/
def resizeAdjustTiledGo (A : Arena) (i : Nat) (axis : Nat) (amt : Int) :
    CmdResults × Arena :=
  let old_w := (getCon A i).width_fraction
  let old_h := (getCon A i).height_fraction
  let A1 := container_resize_tiled A (some i) axis amt
  if (getCon A1 i).width_fraction = old_w ∧ (getCon A1 i).height_fraction = old_h then
    ({ status := CmdStatus.invalid, message := some "Cannot resize any further" }, A1)
  else
    ({ status := CmdStatus.success, message := none }, A1)

/-- Embedding of `resize_adjust_tiled`: a Default unit becomes Percent, a
Percent amount is converted via the dimensions of the target container
itself, then the redistributor runs. -/
def resize_adjust_tiled (A : Arena) (i : Nat) (axis : Nat)
    (am : ResizeAmount) : CmdResults × Arena :=
  let u1 := if am.unit = ResizeUnit.default then ResizeUnit.ppt else am.unit
  let amt :=
    if u1 = ResizeUnit.ppt then
      if is_horizontal axis then pptToPx (getCon A i).width am.amount
      else pptToPx (getCon A i).height am.amount
    else am.amount
  resizeAdjustTiledGo A i axis amt

/-- Upward search of `resize_set_tiled`: the nearest ancestor with the given
layout, starting from the given (possibly absent) parent pointer, with fuel
for the walk. -/
def findParentOfLayout (A : Arena) (L : SwayLayout) : Nat → Option Nat → Option Nat
  | 0, _ => none
  | _ + 1, none => none
  | fuel + 1, some p =>
    if (getCon A p).layout = L then some p
    else findParentOfLayout A L fuel (getCon A p).parent

/-- Embedding of `resize_set_tiled`: converts a Percent or Default amount to
pixels via the nearest horizontal-split (respectively vertical-split)
ancestor, falling back to the workspace dimension, then invokes the
redistributor with the delta from the current size.  Width first, then
height on the resulting arena. -/
def resize_set_tiled (A : Arena) (i : Nat) (w h : ResizeAmount) :
    CmdResults × Arena :=
  let A1 :=
    if w.amount ≠ 0 then
      let conv := w.unit = ResizeUnit.ppt ∨ w.unit = ResizeUnit.default
      let wamt :=
        if conv then
          match findParentOfLayout A SwayLayout.L_HORIZ (A.cons.length + 1)
              (getCon A i).parent with
          | some p => Int.tdiv ((getCon A p).width * w.amount) 100
          | none => Int.tdiv (A.ws.width * w.amount) 100
        else w.amount
      let wunit := if conv then ResizeUnit.px else w.unit
      if wunit = ResizeUnit.px then
        container_resize_tiled A (some i) AXIS_HORIZONTAL (wamt - (getCon A i).width)
      else A
    else A
  let A2 :=
    if h.amount ≠ 0 then
      let conv := h.unit = ResizeUnit.ppt ∨ h.unit = ResizeUnit.default
      let hamt :=
        if conv then
          match findParentOfLayout A1 SwayLayout.L_VERT (A1.cons.length + 1)
              (getCon A1 i).parent with
          | some p => Int.tdiv ((getCon A1 p).height * h.amount) 100
          | none => Int.tdiv (A1.ws.height * h.amount) 100
        else h.amount
      let hunit := if conv then ResizeUnit.px else h.unit
      if hunit = ResizeUnit.px then
        container_resize_tiled A1 (some i) AXIS_VERTICAL (hamt - (getCon A1 i).height)
      else A1
    else A1
  ({ status := CmdStatus.success, message := none }, A2)

/-- Width block of `resize_set_floating` (lines 360-382): returns `none` on
the hidden-scratchpad Percent failure, otherwise the arena after the width
mutation together with `grow_width`.  An Invalid unit only trips a logging
assert and leaves the block without mutating. -/
def setFloatingWidthBlock (A : Arena) (i : Nat) (cns : FloatingConstraints)
    (w : ResizeAmount) : Option (Arena × Int) :=
  if w.amount ≠ 0 then
    match w.unit with
    | ResizeUnit.invalid => some (A, 0)
    | ResizeUnit.ppt =>
      if container_is_scratchpad_hidden A i then none
      else
        let amt := Int.tdiv (A.ws.width * w.amount) 100
        let amt2 := max cns.min_width (min amt cns.max_width)
        let gw := amt2 - (getCon A i).width
        some (updateCon A i (fun c =>
          { c with x := c.x - Int.tdiv gw 2, width := amt2 }), gw)
    | _ =>
      let amt2 := max cns.min_width (min w.amount cns.max_width)
      let gw := amt2 - (getCon A i).width
      some (updateCon A i (fun c =>
        { c with x := c.x - Int.tdiv gw 2, width := amt2 }), gw)
  else some (A, 0)

/-- Height block of `resize_set_floating` (lines 384-406), mirror of the
width block. -/
def setFloatingHeightBlock (A : Arena) (i : Nat) (cns : FloatingConstraints)
    (h : ResizeAmount) : Option (Arena × Int) :=
  if h.amount ≠ 0 then
    match h.unit with
    | ResizeUnit.invalid => some (A, 0)
    | ResizeUnit.ppt =>
      if container_is_scratchpad_hidden A i then none
      else
        let amt := Int.tdiv (A.ws.height * h.amount) 100
        let amt2 := max cns.min_height (min amt cns.max_height)
        let gh := amt2 - (getCon A i).height
        some (updateCon A i (fun c =>
          { c with y := c.y - Int.tdiv gh 2, height := amt2 }), gh)
    | _ =>
      let amt2 := max cns.min_height (min h.amount cns.max_height)
      let gh := amt2 - (getCon A i).height
      some (updateCon A i (fun c =>
        { c with y := c.y - Int.tdiv gh 2, height := amt2 }), gh)
  else some (A, 0)

/-- Embedding of `resize_set_floating`: the width block runs first and
mutates immediately; a failure in the height block therefore returns with
the width mutation already applied and the content fields not yet updated. -/
def resize_set_floating (A : Arena) (i : Nat) (cns : FloatingConstraints)
    (w h : ResizeAmount) : CmdResults × Arena :=
  match setFloatingWidthBlock A i cns w with
  | none =>
    ({ status := CmdStatus.failure,
       message := some "Cannot resize a hidden scratchpad container by ppt" }, A)
  | some (A1, gw) =>
    match setFloatingHeightBlock A1 i cns h with
    | none =>
      ({ status := CmdStatus.failure,
         message := some "Cannot resize a hidden scratchpad container by ppt" }, A1)
    | some (A2, gh) =>
      let A3 := updateCon A2 i (fun c =>
        { c with
          content_x := c.content_x - Int.tdiv gw 2
          content_y := c.content_y - Int.tdiv gh 2
          content_width := c.content_width + gw
          content_height := c.content_height + gh })
      ({ status := CmdStatus.success, message := none }, arrange_container A3 i)

/-- Usage string of `cmd_resize_set`. -/
def resizeSetUsage : String :=
  "Expected 'resize set [width] <width> [px|ppt]' or 'resize set height <height> [px|ppt]' or 'resize set [width] <width> [px|ppt] [height] <height> [px|ppt]'"

/-- Modelled from the spec: the message `checkarg` produces when a handler
receives too few arguments. -/
def checkargMsg : String := "Invalid resize command"

/-- Embedding of `cmd_resize_set` (lines 425-476).  The handler-context
container is `i`; the floating constraints are passed through to the
floating variant.  Note the height block re-checks `width.unit` where the
width block checked it (line 458 of the C source). -/
def cmd_resize_set (A : Arena) (i : Nat) (cns : FloatingConstraints)
    (args0 : List String) : CmdResults × Arena :=
  if args0.length < 1 then
    ({ status := CmdStatus.invalid, message := some checkargMsg }, A)
  else
    let args1 :=
      if 2 ≤ args0.length ∧ args0.getD 0 "" = "width" ∧ args0.getD 1 "" ≠ "height"
      then args0.tail else args0
    let wres : Option (ResizeAmount × List String) :=
      if args1.getD 0 "" ≠ "height" then
        let pr := parse_resize_amount args1
        if pr.1.unit = ResizeUnit.invalid then none
        else some (pr.1, args1.drop pr.2)
      else some ({ amount := 0, unit := ResizeUnit.px }, args1)
    match wres with
    | none => ({ status := CmdStatus.invalid, message := some resizeSetUsage }, A)
    | some (w, args2) =>
      let hres : Option ResizeAmount :=
        if args2.length ≠ 0 then
          let args3 :=
            if 2 ≤ args2.length ∧ args2.getD 0 "" = "height" then args2.tail else args2
          let pr := parse_resize_amount args3
          if args3.length > pr.2 then none
          else if w.unit = ResizeUnit.invalid then none
          else some pr.1
        else some { amount := 0, unit := ResizeUnit.px }
      match hres with
      | none => ({ status := CmdStatus.invalid, message := some resizeSetUsage }, A)
      | some h =>
        let w1 := if w.amount ≤ 0 then { w with amount := (getCon A i).width } else w
        let h1 := if h.amount ≤ 0 then { h with amount := (getCon A i).height } else h
        if container_is_floating A i then resize_set_floating A i cns w1 h1
        else resize_set_tiled A i w1 h1

/-- Usage string of `cmd_resize_adjust`. -/
def resizeAdjustUsage : String :=
  "Expected 'resize grow|shrink <direction> [<amount> px|ppt [or <amount> px|ppt]]'"

/-- Dispatch tail of `cmd_resize_adjust` (lines 535-564): unit-preference
order between the two candidate amounts, floating containers preferring
px then default and rejecting ppt, tiled containers preferring ppt then
default then the first amount verbatim. -/
def resize_adjust_dispatch (A : Arena) (i : Nat) (cns : FloatingConstraints)
    (axis : Nat) (first second : ResizeAmount) : CmdResults × Arena :=
  if container_is_floating A i then
    if first.unit = ResizeUnit.px then resize_adjust_floating A i cns axis first
    else if second.unit = ResizeUnit.px then resize_adjust_floating A i cns axis second
    else if first.unit = ResizeUnit.default then resize_adjust_floating A i cns axis first
    else if second.unit = ResizeUnit.default then resize_adjust_floating A i cns axis second
    else
      ({ status := CmdStatus.invalid,
         message := some "Floating containers cannot use ppt measurements" }, A)
  else
    if first.unit = ResizeUnit.ppt then resize_adjust_tiled A i axis first
    else if second.unit = ResizeUnit.ppt then resize_adjust_tiled A i axis second
    else if first.unit = ResizeUnit.default then resize_adjust_tiled A i axis first
    else if second.unit = ResizeUnit.default then resize_adjust_tiled A i axis second
    else resize_adjust_tiled A i axis first

/-- Embedding of `cmd_resize_adjust` (lines 485-565): direction keyword,
then up to two amounts separated by `or`, then the sign multiplier, then
dispatch. -/
def cmd_resize_adjust (A : Arena) (i : Nat) (cns : FloatingConstraints)
    (args0 : List String) (multiplier : Int) : CmdResults × Arena :=
  let axis := parse_resize_axis (args0.getD 0 "")
  if axis = WLR_EDGE_NONE then
    ({ status := CmdStatus.invalid, message := some resizeAdjustUsage }, A)
  else
    let args1 := args0.tail
    let fres : Option (ResizeAmount × List String) :=
      if args1.length ≠ 0 then
        let pr := parse_resize_amount args1
        if pr.1.unit = ResizeUnit.invalid then none
        else some (pr.1, args1.drop pr.2)
      else some ({ amount := 10, unit := ResizeUnit.default }, args1)
    match fres with
    | none => ({ status := CmdStatus.invalid, message := some resizeAdjustUsage }, A)
    | some (first, args2) =>
      let ores : Option (List String) :=
        if args2.length ≠ 0 then
          if args2.getD 0 "" ≠ "or" then none else some args2.tail
        else some args2
      match ores with
      | none => ({ status := CmdStatus.invalid, message := some resizeAdjustUsage }, A)
      | some args3 =>
        let sres : Option ResizeAmount :=
          if args3.length ≠ 0 then
            let pr := parse_resize_amount args3
            if args3.length > pr.2 then none
            else if pr.1.unit = ResizeUnit.invalid then none
            else some pr.1
          else some { amount := 0, unit := ResizeUnit.invalid }
        match sres with
        | none => ({ status := CmdStatus.invalid, message := some resizeAdjustUsage }, A)
        | some second =>
          let first1 := { first with amount := first.amount * multiplier }
          let second1 := { second with amount := second.amount * multiplier }
          resize_adjust_dispatch A i cns axis first1 second1

/-! ### Basic lemmas about the arena -/

lemma getCon_updateCon_self (A : Arena) (j : Nat) (g : Container → Container)
    (h : j < A.cons.length) : getCon (updateCon A j g) j = g (getCon A j) := by
  simp [getCon, updateCon, List.getD_eq_getElem?_getD, List.getElem?_set_eq_of_lt _ h,
    List.getElem?_eq_getElem h]

lemma getCon_updateCon_ne (A : Arena) (j k : Nat) (g : Container → Container)
    (h : k ≠ j) : getCon (updateCon A j g) k = getCon A k := by
  simp [getCon, updateCon, List.getD_eq_getElem?_getD, List.getElem?_set_ne (Ne.symm h)]

lemma updateCon_length (A : Arena) (j : Nat) (g : Container → Container) :
    (updateCon A j g).cons.length = A.cons.length := by
  simp [updateCon]

lemma arrangeAfter_eq (A : Arena) (con : Nat) : arrangeAfter A con = A := by
  unfold arrangeAfter
  cases (getCon A con).parent <;> rfl

lemma container_resize_tiled_eq_apply (A : Arena) (c0 : Nat) (axis : Nat)
    (amount : Int) (c1 : Nat) (sel : Nat × Option Nat × Nat × Int)
    (hfind : container_find_resize_parent A c0 axis = some c1)
    (hsel : resizeTiledSelect (container_get_siblings A c1)
        (container_sibling_index A c1) c1 axis amount = some sel) :
    container_resize_tiled A (some c0) axis amount = resizeTiledApply A axis sel := by
  unfold container_resize_tiled
  dsimp only
  rw [hfind]
  dsimp only
  rw [hsel]

/-- The application block returns the arena unchanged whenever one of the
three minimum-size checks fires, on either axis. -/
lemma resizeTiledApply_guard (A : Arena) (axis : Nat) (con next : Nat)
    (prev : Option Nat) (amt : Int) :
    (is_horizontal axis = true →
      ((getCon A con).width + amt < MIN_SANE_W
        ∨ (getCon A next).width - siblingAmount prev amt < MIN_SANE_W
        ∨ (∃ p, prev = some p ∧ (getCon A p).width - siblingAmount prev amt < MIN_SANE_W))
      → resizeTiledApply A axis (con, prev, next, amt) = A)
    ∧ (is_horizontal axis = false →
      ((getCon A con).height + amt < MIN_SANE_H
        ∨ (getCon A next).height - siblingAmount prev amt < MIN_SANE_H
        ∨ (∃ p, prev = some p ∧ (getCon A p).height - siblingAmount prev amt < MIN_SANE_H))
      → resizeTiledApply A axis (con, prev, next, amt) = A) := by
  constructor
  · intro hhor hviol
    unfold resizeTiledApply
    dsimp only
    rw [hhor]
    simp only [if_true]
    split_ifs with h1 h2 h3
    · rfl
    · rfl
    · rfl
    · exfalso
      rcases hviol with hv | hv | ⟨p, hp, hv⟩
      · exact h1 hv
      · exact h2 hv
      · subst hp
        simp only [decide_eq_true_eq] at h3
        exact h3 hv
  · intro hver hviol
    unfold resizeTiledApply
    dsimp only
    rw [hver]
    simp only [Bool.false_eq_true, if_false]
    split_ifs with h1 h2 h3
    · rfl
    · rfl
    · rfl
    · exfalso
      rcases hviol with hv | hv | ⟨p, hp, hv⟩
      · exact h1 hv
      · exact h2 hv
      · subst hp
        simp only [decide_eq_true_eq] at h3
        exact h3 hv

/-- Exact fraction mutation of the application block on a horizontal axis
when all three minimum-size checks pass: the active container gains
`(amt/width) * fraction`, and each absorbing sibling then loses
`(sibling_amount/width)` times the already-updated active fraction.
Containers other than the three touched ones are unchanged. -/
lemma resizeTiledApply_horiz (A : Arena) (axis : Nat) (con next : Nat)
    (prev : Option Nat) (amt : Int)
    (hhor : is_horizontal axis = true)
    (hconlt : con < A.cons.length) (hnextlt : next < A.cons.length)
    (hcn : con ≠ next)
    (hprev : ∀ p, prev = some p → p < A.cons.length ∧ p ≠ con ∧ p ≠ next)
    (hk1 : ¬((getCon A con).width + amt < MIN_SANE_W))
    (hk2 : ¬((getCon A next).width - siblingAmount prev amt < MIN_SANE_W))
    (hk3 : ∀ p, prev = some p →
      ¬((getCon A p).width - siblingAmount prev amt < MIN_SANE_W)) :
    (getCon (resizeTiledApply A axis (con, prev, next, amt)) con).width_fraction
      = (getCon A con).width_fraction
        + ((amt : ℚ) / ((getCon A con).width : ℚ)) * (getCon A con).width_fraction
    ∧ (getCon (resizeTiledApply A axis (con, prev, next, amt)) next).width_fraction
      = (getCon A next).width_fraction
        - ((siblingAmount prev amt : ℚ) / ((getCon A con).width : ℚ))
          * ((getCon A con).width_fraction
             + ((amt : ℚ) / ((getCon A con).width : ℚ)) * (getCon A con).width_fraction)
    ∧ (∀ p, prev = some p →
        (getCon (resizeTiledApply A axis (con, prev, next, amt)) p).width_fraction
          = (getCon A p).width_fraction
            - ((siblingAmount prev amt : ℚ) / ((getCon A con).width : ℚ))
              * ((getCon A con).width_fraction
                 + ((amt : ℚ) / ((getCon A con).width : ℚ)) * (getCon A con).width_fraction))
    ∧ (∀ j, j ≠ con → j ≠ next → (∀ p, prev = some p → j ≠ p) →
        getCon (resizeTiledApply A axis (con, prev, next, amt)) j = getCon A j) := by
  rcases prev with _ | p
  · have hsel : resizeTiledApply A axis (con, none, next, amt)
        = arrangeAfter
            (updateCon
              (updateCon A con (fun c =>
                { c with width_fraction :=
                    c.width_fraction
                      + ((amt : ℚ) / ((getCon A con).width : ℚ)) * c.width_fraction }))
              next (fun c =>
                { c with width_fraction :=
                    c.width_fraction
                      - ((siblingAmount (none : Option Nat) amt : ℚ) / ((getCon A con).width : ℚ))
                        * (getCon
                            (updateCon A con (fun c =>
                              { c with width_fraction :=
                                  c.width_fraction
                                    + ((amt : ℚ) / ((getCon A con).width : ℚ)) * c.width_fraction }))
                            con).width_fraction }))
            con := by
      unfold resizeTiledApply
      dsimp only
      rw [hhor]
      simp only [if_true]
      rw [if_neg hk1, if_neg hk2]
      simp only [Bool.false_eq_true, if_false]
    rw [hsel, arrangeAfter_eq]
    have hAcon : (getCon (updateCon A con (fun c =>
        { c with width_fraction :=
            c.width_fraction + ((amt : ℚ) / ((getCon A con).width : ℚ)) * c.width_fraction }))
        con).width_fraction
        = (getCon A con).width_fraction
          + ((amt : ℚ) / ((getCon A con).width : ℚ)) * (getCon A con).width_fraction := by
      rw [getCon_updateCon_self _ _ _ hconlt]
    refine ⟨?_, ?_, ?_, ?_⟩
    · rw [getCon_updateCon_ne _ _ _ _ hcn, getCon_updateCon_self _ _ _ hconlt]
    · rw [getCon_updateCon_self]
      · rw [getCon_updateCon_ne _ _ _ _ (Ne.symm hcn), hAcon]
      · rw [updateCon_length]; exact hnextlt
    · intro p hp; cases hp
    · intro j hjc hjn _
      rw [getCon_updateCon_ne _ _ _ _ hjn, getCon_updateCon_ne _ _ _ _ hjc]
  · obtain ⟨hplt, hpc, hpn⟩ := hprev p rfl
    have hk3p := hk3 p rfl
    have hsel : resizeTiledApply A axis (con, some p, next, amt)
        = arrangeAfter
            (updateCon
              (updateCon
                (updateCon A con (fun c =>
                  { c with width_fraction :=
                      c.width_fraction
                        + ((amt : ℚ) / ((getCon A con).width : ℚ)) * c.width_fraction }))
                next (fun c =>
                  { c with width_fraction :=
                      c.width_fraction
                        - ((siblingAmount (some p) amt : ℚ) / ((getCon A con).width : ℚ))
                          * (getCon
                              (updateCon A con (fun c =>
                                { c with width_fraction :=
                                    c.width_fraction
                                      + ((amt : ℚ) / ((getCon A con).width : ℚ)) * c.width_fraction }))
                              con).width_fraction }))
              p (fun c =>
                { c with width_fraction :=
                    c.width_fraction
                      - ((siblingAmount (some p) amt : ℚ) / ((getCon A con).width : ℚ))
                        * (getCon
                            (updateCon
                              (updateCon A con (fun c =>
                                { c with width_fraction :=
                                    c.width_fraction
                                      + ((amt : ℚ) / ((getCon A con).width : ℚ)) * c.width_fraction }))
                              next (fun c =>
                                { c with width_fraction :=
                                    c.width_fraction
                                      - ((siblingAmount (some p) amt : ℚ) / ((getCon A con).width : ℚ))
                                        * (getCon
                                            (updateCon A con (fun c =>
                                              { c with width_fraction :=
                                                  c.width_fraction
                                                    + ((amt : ℚ) / ((getCon A con).width : ℚ)) * c.width_fraction }))
                                            con).width_fraction }))
                            con).width_fraction }))
            con := by
      unfold resizeTiledApply
      dsimp only
      rw [hhor]
      simp only [if_true]
      rw [if_neg hk1, if_neg hk2]
      simp only [decide_eq_true_eq]
      rw [if_neg hk3p]
    rw [hsel, arrangeAfter_eq]
    have hAcon : (getCon (updateCon A con (fun c =>
        { c with width_fraction :=
            c.width_fraction + ((amt : ℚ) / ((getCon A con).width : ℚ)) * c.width_fraction }))
        con).width_fraction
        = (getCon A con).width_fraction
          + ((amt : ℚ) / ((getCon A con).width : ℚ)) * (getCon A con).width_fraction := by
      rw [getCon_updateCon_self _ _ _ hconlt]
    have hA2con : ∀ g2 : Container → Container,
        (getCon (updateCon (updateCon A con (fun c =>
          { c with width_fraction :=
              c.width_fraction + ((amt : ℚ) / ((getCon A con).width : ℚ)) * c.width_fraction }))
          next g2) con).width_fraction
        = (getCon A con).width_fraction
          + ((amt : ℚ) / ((getCon A con).width : ℚ)) * (getCon A con).width_fraction := by
      intro g2
      rw [getCon_updateCon_ne _ _ _ _ hcn, getCon_updateCon_self _ _ _ hconlt]
    refine ⟨?_, ?_, ?_, ?_⟩
    · rw [getCon_updateCon_ne _ _ _ _ (Ne.symm hpc), getCon_updateCon_ne _ _ _ _ hcn,
        getCon_updateCon_self _ _ _ hconlt]
    · rw [getCon_updateCon_ne _ _ _ _ (Ne.symm hpn)]
      rw [getCon_updateCon_self]
      · rw [getCon_updateCon_ne _ _ _ _ (Ne.symm hcn), hAcon]
      · rw [updateCon_length]; exact hnextlt
    · intro q hq
      cases hq
      rw [getCon_updateCon_self]
      · rw [hA2con]
        rw [getCon_updateCon_ne _ _ _ _ hpn, getCon_updateCon_ne _ _ _ _ hpc]
      · rw [updateCon_length, updateCon_length]; exact hplt
    · intro j hjc hjn hjp
      rw [getCon_updateCon_ne _ _ _ _ (hjp p rfl), getCon_updateCon_ne _ _ _ _ hjn,
        getCon_updateCon_ne _ _ _ _ hjc]

/-- Vertical mirror of `resizeTiledApply_horiz`. -/
lemma resizeTiledApply_vert (A : Arena) (axis : Nat) (con next : Nat)
    (prev : Option Nat) (amt : Int)
    (hver : is_horizontal axis = false)
    (hconlt : con < A.cons.length) (hnextlt : next < A.cons.length)
    (hcn : con ≠ next)
    (hprev : ∀ p, prev = some p → p < A.cons.length ∧ p ≠ con ∧ p ≠ next)
    (hk1 : ¬((getCon A con).height + amt < MIN_SANE_H))
    (hk2 : ¬((getCon A next).height - siblingAmount prev amt < MIN_SANE_H))
    (hk3 : ∀ p, prev = some p →
      ¬((getCon A p).height - siblingAmount prev amt < MIN_SANE_H)) :
    (getCon (resizeTiledApply A axis (con, prev, next, amt)) con).height_fraction
      = (getCon A con).height_fraction
        + ((amt : ℚ) / ((getCon A con).height : ℚ)) * (getCon A con).height_fraction
    ∧ (getCon (resizeTiledApply A axis (con, prev, next, amt)) next).height_fraction
      = (getCon A next).height_fraction
        - ((siblingAmount prev amt : ℚ) / ((getCon A con).height : ℚ))
          * ((getCon A con).height_fraction
             + ((amt : ℚ) / ((getCon A con).height : ℚ)) * (getCon A con).height_fraction)
    ∧ (∀ p, prev = some p →
        (getCon (resizeTiledApply A axis (con, prev, next, amt)) p).height_fraction
          = (getCon A p).height_fraction
            - ((siblingAmount prev amt : ℚ) / ((getCon A con).height : ℚ))
              * ((getCon A con).height_fraction
                 + ((amt : ℚ) / ((getCon A con).height : ℚ)) * (getCon A con).height_fraction))
    ∧ (∀ j, j ≠ con → j ≠ next → (∀ p, prev = some p → j ≠ p) →
        getCon (resizeTiledApply A axis (con, prev, next, amt)) j = getCon A j) := by
  rcases prev with _ | p
  · have hsel : resizeTiledApply A axis (con, none, next, amt)
        = arrangeAfter
            (updateCon
              (updateCon A con (fun c =>
                { c with height_fraction :=
                    c.height_fraction
                      + ((amt : ℚ) / ((getCon A con).height : ℚ)) * c.height_fraction }))
              next (fun c =>
                { c with height_fraction :=
                    c.height_fraction
                      - ((siblingAmount (none : Option Nat) amt : ℚ) / ((getCon A con).height : ℚ))
                        * (getCon
                            (updateCon A con (fun c =>
                              { c with height_fraction :=
                                  c.height_fraction
                                    + ((amt : ℚ) / ((getCon A con).height : ℚ)) * c.height_fraction }))
                            con).height_fraction }))
            con := by
      unfold resizeTiledApply
      dsimp only
      rw [hver]
      simp only [Bool.false_eq_true, if_false]
      rw [if_neg hk1, if_neg hk2]
    rw [hsel, arrangeAfter_eq]
    have hAcon : (getCon (updateCon A con (fun c =>
        { c with height_fraction :=
            c.height_fraction + ((amt : ℚ) / ((getCon A con).height : ℚ)) * c.height_fraction }))
        con).height_fraction
        = (getCon A con).height_fraction
          + ((amt : ℚ) / ((getCon A con).height : ℚ)) * (getCon A con).height_fraction := by
      rw [getCon_updateCon_self _ _ _ hconlt]
    refine ⟨?_, ?_, ?_, ?_⟩
    · rw [getCon_updateCon_ne _ _ _ _ hcn, getCon_updateCon_self _ _ _ hconlt]
    · rw [getCon_updateCon_self]
      · rw [getCon_updateCon_ne _ _ _ _ (Ne.symm hcn), hAcon]
      · rw [updateCon_length]; exact hnextlt
    · intro p hp; cases hp
    · intro j hjc hjn _
      rw [getCon_updateCon_ne _ _ _ _ hjn, getCon_updateCon_ne _ _ _ _ hjc]
  · obtain ⟨hplt, hpc, hpn⟩ := hprev p rfl
    have hk3p := hk3 p rfl
    have hsel : resizeTiledApply A axis (con, some p, next, amt)
        = arrangeAfter
            (updateCon
              (updateCon
                (updateCon A con (fun c =>
                  { c with height_fraction :=
                      c.height_fraction
                        + ((amt : ℚ) / ((getCon A con).height : ℚ)) * c.height_fraction }))
                next (fun c =>
                  { c with height_fraction :=
                      c.height_fraction
                        - ((siblingAmount (some p) amt : ℚ) / ((getCon A con).height : ℚ))
                          * (getCon
                              (updateCon A con (fun c =>
                                { c with height_fraction :=
                                    c.height_fraction
                                      + ((amt : ℚ) / ((getCon A con).height : ℚ)) * c.height_fraction }))
                              con).height_fraction }))
              p (fun c =>
                { c with height_fraction :=
                    c.height_fraction
                      - ((siblingAmount (some p) amt : ℚ) / ((getCon A con).height : ℚ))
                        * (getCon
                            (updateCon
                              (updateCon A con (fun c =>
                                { c with height_fraction :=
                                    c.height_fraction
                                      + ((amt : ℚ) / ((getCon A con).height : ℚ)) * c.height_fraction }))
                              next (fun c =>
                                { c with height_fraction :=
                                    c.height_fraction
                                      - ((siblingAmount (some p) amt : ℚ) / ((getCon A con).height : ℚ))
                                        * (getCon
                                            (updateCon A con (fun c =>
                                              { c with height_fraction :=
                                                  c.height_fraction
                                                    + ((amt : ℚ) / ((getCon A con).height : ℚ)) * c.height_fraction }))
                                            con).height_fraction }))
                            con).height_fraction }))
            con := by
      unfold resizeTiledApply
      dsimp only
      rw [hver]
      simp only [Bool.false_eq_true, if_false]
      rw [if_neg hk1, if_neg hk2]
      simp only [decide_eq_true_eq]
      rw [if_neg hk3p]
    rw [hsel, arrangeAfter_eq]
    have hAcon : (getCon (updateCon A con (fun c =>
        { c with height_fraction :=
            c.height_fraction + ((amt : ℚ) / ((getCon A con).height : ℚ)) * c.height_fraction }))
        con).height_fraction
        = (getCon A con).height_fraction
          + ((amt : ℚ) / ((getCon A con).height : ℚ)) * (getCon A con).height_fraction := by
      rw [getCon_updateCon_self _ _ _ hconlt]
    have hA2con : ∀ g2 : Container → Container,
        (getCon (updateCon (updateCon A con (fun c =>
          { c with height_fraction :=
              c.height_fraction + ((amt : ℚ) / ((getCon A con).height : ℚ)) * c.height_fraction }))
          next g2) con).height_fraction
        = (getCon A con).height_fraction
          + ((amt : ℚ) / ((getCon A con).height : ℚ)) * (getCon A con).height_fraction := by
      intro g2
      rw [getCon_updateCon_ne _ _ _ _ hcn, getCon_updateCon_self _ _ _ hconlt]
    refine ⟨?_, ?_, ?_, ?_⟩
    · rw [getCon_updateCon_ne _ _ _ _ (Ne.symm hpc), getCon_updateCon_ne _ _ _ _ hcn,
        getCon_updateCon_self _ _ _ hconlt]
    · rw [getCon_updateCon_ne _ _ _ _ (Ne.symm hpn)]
      rw [getCon_updateCon_self]
      · rw [getCon_updateCon_ne _ _ _ _ (Ne.symm hcn), hAcon]
      · rw [updateCon_length]; exact hnextlt
    · intro q hq
      cases hq
      rw [getCon_updateCon_self]
      · rw [hA2con]
        rw [getCon_updateCon_ne _ _ _ _ hpn, getCon_updateCon_ne _ _ _ _ hpc]
      · rw [updateCon_length, updateCon_length]; exact hplt
    · intro j hjc hjn hjp
      rw [getCon_updateCon_ne _ _ _ _ (hjp p rfl), getCon_updateCon_ne _ _ _ _ hjn,
        getCon_updateCon_ne _ _ _ _ hjc]

/-- The loop condition of the locator is equivalent to the qualification
predicate as phrased in the claim. -/
lemma qualifies_cond_iff (A : Arena) (axis j : Nat) :
    (container_parent_layout A j
        = (if is_horizontal axis then SwayLayout.L_HORIZ else SwayLayout.L_VERT)
      ∧ 1 < (container_get_siblings A j).length
      ∧ ((axis ≠ WLR_EDGE_TOP ∧ axis ≠ WLR_EDGE_LEFT)
          ∨ 0 < container_sibling_index A j)
      ∧ ((axis ≠ WLR_EDGE_RIGHT ∧ axis ≠ WLR_EDGE_BOTTOM)
          ∨ container_sibling_index A j < (container_get_siblings A j).length - 1))
    ↔ qualifiesSpec A axis j := by
  unfold qualifiesSpec
  tauto

/-- The locator loop returns the first member of the ancestor chain that
satisfies the qualification predicate. -/
lemma findResizeParentAux_eq_find (A : Arena) (axis : Nat) :
    ∀ (fuel : Nat) (oj : Option Nat),
      findResizeParentAux A axis fuel oj
        = (ancestorChain A fuel oj).find? (fun j => decide (qualifiesSpec A axis j)) := by
  intro fuel
  induction fuel with
  | zero => intro oj; cases oj <;> rfl
  | succ n ih =>
    intro oj
    cases oj with
    | none => rfl
    | some j =>
      by_cases h : qualifiesSpec A axis j
      · rw [findResizeParentAux, if_pos ((qualifies_cond_iff A axis j).mpr h),
          ancestorChain, List.find?_cons_of_pos _ (by simpa using h)]
      · rw [findResizeParentAux, if_neg (fun hc => h ((qualifies_cond_iff A axis j).mp hc)),
          ancestorChain, List.find?_cons_of_neg _ (by simpa using h), ih]

/-! ### Concrete arenas used by witnesses and counterexamples -/

/-- Two tiled siblings of width 200 under a horizontal-split workspace, each
holding half of the width fraction. -/
def arenaTwoH : Arena :=
  { cons := [ { parent := none, width := 200, height := 300,
                width_fraction := 1/2, height_fraction := 1 },
              { parent := none, width := 200, height := 300,
                width_fraction := 1/2, height_fraction := 1 } ],
    ws := { width := 400, height := 300, layout := SwayLayout.L_HORIZ, tiling := [0, 1] } }

/-- Two tiled siblings of width 150 under a horizontal-split workspace: a
100-pixel grow of either sibling would push the other below `MIN_SANE_W`. -/
def arenaGuard : Arena :=
  { cons := [ { parent := none, width := 150, height := 300,
                width_fraction := 1/2, height_fraction := 1 },
              { parent := none, width := 150, height := 300,
                width_fraction := 1/2, height_fraction := 1 } ],
    ws := { width := 300, height := 300, layout := SwayLayout.L_HORIZ, tiling := [0, 1] } }

/-- One floating container of size 500 x 400 at position (10, 20). -/
def arenaFloat : Arena :=
  { cons := [ { parent := none, width := 500, height := 400, x := 10, y := 20,
                content_x := 10, content_y := 20, content_width := 500,
                content_height := 400, floating := true } ],
    ws := { width := 1920, height := 1080 } }

/-- One floating container of size 400 x 400 that is a hidden scratchpad
member. -/
def arenaHidden : Arena :=
  { cons := [ { parent := none, width := 400, height := 400,
                content_width := 400, content_height := 400,
                floating := true, scratchpad_hidden := true } ],
    ws := { width := 1920, height := 1080 } }

/-- One plain floating container of size 400 x 400. -/
def arenaPlainFloat : Arena :=
  { cons := [ { parent := none, width := 400, height := 400,
                content_width := 400, content_height := 400, floating := true } ],
    ws := { width := 1920, height := 1080 } }

/-- Two tiled siblings under an 800-pixel-wide horizontal-split parent
container (index 2), itself a child of a vertical-split workspace. -/
def arenaSet : Arena :=
  { cons := [ { parent := some 2, width := 300, height := 600, width_fraction := 1/2 },
              { parent := some 2, width := 500, height := 600, width_fraction := 1/2 },
              { parent := none, width := 800, height := 600,
                layout := SwayLayout.L_HORIZ, children := [0, 1] } ],
    ws := { width := 1920, height := 1080, layout := SwayLayout.L_VERT, tiling := [2] } }

/-- Floating-size constraints with wide margins: widths in [100, 2000],
heights in [50, 2000]. -/
def cnsStd : FloatingConstraints :=
  { min_width := 100, max_width := 2000, min_height := 50, max_height := 2000 }

/-! ### Claim theorems -/

/-- C1 (counterexample): the sibling width-fraction sum is not preserved by a
successful tiled redistribution.  On two 200-pixel siblings holding
fractions 1/2 each, growing the first by 100 pixels moves the fractions to
3/4 and 1/8: the sum drops from 1 to 7/8, far beyond floating-point
tolerance, and the operation did mutate the active fraction. -/
theorem c1_counterexample :
    sumWF arenaTwoH [0, 1] = 1
    ∧ sumWF (container_resize_tiled arenaTwoH (some 0) AXIS_HORIZONTAL 100) [0, 1] = 7/8
    ∧ (getCon (container_resize_tiled arenaTwoH (some 0) AXIS_HORIZONTAL 100) 0).width_fraction
        ≠ (getCon arenaTwoH 0).width_fraction := by
  have h := resizeTiledApply_horiz arenaTwoH AXIS_HORIZONTAL 0 1 none 100 rfl
    (by decide) (by decide) (by decide) (fun p hp => nomatch hp)
    (by decide) (by decide) (fun p hp => nomatch hp)
  rw [container_resize_tiled_eq_apply arenaTwoH 0 AXIS_HORIZONTAL 100 0 (0, none, 1, 100) rfl rfl]
  have h0 : (getCon arenaTwoH 0).width_fraction = 1/2 := rfl
  have h1 : (getCon arenaTwoH 1).width_fraction = 1/2 := rfl
  have hw : ((getCon arenaTwoH 0).width : ℚ) = 200 := rfl
  have hs : siblingAmount (none : Option Nat) 100 = 100 := rfl
  refine ⟨?_, ?_, ?_⟩
  · simp [sumWF, h0, h1]
    norm_num
  · simp only [sumWF, List.map, List.sum_cons, List.sum_nil]
    rw [h.1, h.2.1, hs, h0, h1, hw]
    norm_num
  · rw [h.1, h0, hw]
    norm_num

/-- C1 (amended): in a successful tiled redistribution the active container
gains `(amount/width) * fraction` of fraction, while each absorbing sibling
loses `(sibling_amount/width)` times the active container fraction as
already updated (not the old one); all other containers are untouched.  The
sibling-fraction sum is therefore not invariant in general.  Stated for
both the horizontal (width) and vertical (height) branches. -/
theorem c1_amended_fraction_update (A : Arena) (c0 axis : Nat) (amount : Int)
    (c1 con next : Nat) (prev : Option Nat) (amt : Int)
    (hfind : container_find_resize_parent A c0 axis = some c1)
    (hsel : resizeTiledSelect (container_get_siblings A c1)
        (container_sibling_index A c1) c1 axis amount = some (con, prev, next, amt))
    (hconlt : con < A.cons.length) (hnextlt : next < A.cons.length)
    (hcn : con ≠ next)
    (hprev : ∀ p, prev = some p → p < A.cons.length ∧ p ≠ con ∧ p ≠ next) :
    (is_horizontal axis = true →
      ¬((getCon A con).width + amt < MIN_SANE_W) →
      ¬((getCon A next).width - siblingAmount prev amt < MIN_SANE_W) →
      (∀ p, prev = some p →
        ¬((getCon A p).width - siblingAmount prev amt < MIN_SANE_W)) →
      (getCon (container_resize_tiled A (some c0) axis amount) con).width_fraction
        = (getCon A con).width_fraction
          + ((amt : ℚ) / ((getCon A con).width : ℚ)) * (getCon A con).width_fraction
      ∧ (getCon (container_resize_tiled A (some c0) axis amount) next).width_fraction
        = (getCon A next).width_fraction
          - ((siblingAmount prev amt : ℚ) / ((getCon A con).width : ℚ))
            * ((getCon A con).width_fraction
               + ((amt : ℚ) / ((getCon A con).width : ℚ)) * (getCon A con).width_fraction)
      ∧ (∀ p, prev = some p →
          (getCon (container_resize_tiled A (some c0) axis amount) p).width_fraction
            = (getCon A p).width_fraction
              - ((siblingAmount prev amt : ℚ) / ((getCon A con).width : ℚ))
                * ((getCon A con).width_fraction
                   + ((amt : ℚ) / ((getCon A con).width : ℚ)) * (getCon A con).width_fraction))
      ∧ (∀ j, j ≠ con → j ≠ next → (∀ p, prev = some p → j ≠ p) →
          getCon (container_resize_tiled A (some c0) axis amount) j = getCon A j))
    ∧ (is_horizontal axis = false →
      ¬((getCon A con).height + amt < MIN_SANE_H) →
      ¬((getCon A next).height - siblingAmount prev amt < MIN_SANE_H) →
      (∀ p, prev = some p →
        ¬((getCon A p).height - siblingAmount prev amt < MIN_SANE_H)) →
      (getCon (container_resize_tiled A (some c0) axis amount) con).height_fraction
        = (getCon A con).height_fraction
          + ((amt : ℚ) / ((getCon A con).height : ℚ)) * (getCon A con).height_fraction
      ∧ (getCon (container_resize_tiled A (some c0) axis amount) next).height_fraction
        = (getCon A next).height_fraction
          - ((siblingAmount prev amt : ℚ) / ((getCon A con).height : ℚ))
            * ((getCon A con).height_fraction
               + ((amt : ℚ) / ((getCon A con).height : ℚ)) * (getCon A con).height_fraction)
      ∧ (∀ p, prev = some p →
          (getCon (container_resize_tiled A (some c0) axis amount) p).height_fraction
            = (getCon A p).height_fraction
              - ((siblingAmount prev amt : ℚ) / ((getCon A con).height : ℚ))
                * ((getCon A con).height_fraction
                   + ((amt : ℚ) / ((getCon A con).height : ℚ)) * (getCon A con).height_fraction))
      ∧ (∀ j, j ≠ con → j ≠ next → (∀ p, prev = some p → j ≠ p) →
          getCon (container_resize_tiled A (some c0) axis amount) j = getCon A j)) := by
  rw [container_resize_tiled_eq_apply A c0 axis amount c1 (con, prev, next, amt) hfind hsel]
  constructor
  · intro hhor hk1 hk2 hk3
    exact resizeTiledApply_horiz A axis con next prev amt hhor hconlt hnextlt hcn hprev hk1 hk2 hk3
  · intro hver hk1 hk2 hk3
    exact resizeTiledApply_vert A axis con next prev amt hver hconlt hnextlt hcn hprev hk1 hk2 hk3

/-- Witness for C1 (amended) on the concrete two-sibling arena. -/
theorem c1_amended_fraction_update_witness :
    (getCon (container_resize_tiled arenaTwoH (some 0) AXIS_HORIZONTAL 100) 0).width_fraction
      = (getCon arenaTwoH 0).width_fraction
        + (((100 : Int) : ℚ) / ((getCon arenaTwoH 0).width : ℚ))
          * (getCon arenaTwoH 0).width_fraction := by
  have h := c1_amended_fraction_update arenaTwoH 0 AXIS_HORIZONTAL 100 0 0 1 none 100
    rfl rfl (by decide) (by decide) (by decide) (fun p hp => nomatch hp)
  exact (h.1 rfl (by decide) (by decide) (fun p hp => nomatch hp)).1

/-- C2 (confirmed): if the post-resize size of the active container or of
any absorbing sibling would fall below the minimum sane size (100 pixels of
width on horizontal axes, 60 pixels of height on vertical axes), then
`container_resize_tiled` returns the arena entirely unchanged: the check
covers every affected container before any fraction is written, so no
successful tiled resize leaves a touched container below the minimum. -/
theorem c2_min_size_guard (A : Arena) (c0 axis : Nat) (amount : Int)
    (c1 con next : Nat) (prev : Option Nat) (amt : Int)
    (hfind : container_find_resize_parent A c0 axis = some c1)
    (hsel : resizeTiledSelect (container_get_siblings A c1)
        (container_sibling_index A c1) c1 axis amount = some (con, prev, next, amt)) :
    (is_horizontal axis = true →
      ((getCon A con).width + amt < MIN_SANE_W
        ∨ (getCon A next).width - siblingAmount prev amt < MIN_SANE_W
        ∨ (∃ p, prev = some p ∧ (getCon A p).width - siblingAmount prev amt < MIN_SANE_W))
      → container_resize_tiled A (some c0) axis amount = A)
    ∧ (is_horizontal axis = false →
      ((getCon A con).height + amt < MIN_SANE_H
        ∨ (getCon A next).height - siblingAmount prev amt < MIN_SANE_H
        ∨ (∃ p, prev = some p ∧ (getCon A p).height - siblingAmount prev amt < MIN_SANE_H))
      → container_resize_tiled A (some c0) axis amount = A) := by
  rw [container_resize_tiled_eq_apply A c0 axis amount c1 (con, prev, next, amt) hfind hsel]
  exact resizeTiledApply_guard A axis con next prev amt

/-- Witness for C2 on two 150-pixel siblings: growing the first by 100 would
push the second to 50 < 100 pixels, so nothing is mutated. -/
theorem c2_min_size_guard_witness :
    container_resize_tiled arenaGuard (some 0) AXIS_HORIZONTAL 100 = arenaGuard := by
  exact (c2_min_size_guard arenaGuard 0 AXIS_HORIZONTAL 100 0 0 1 none 100 rfl rfl).1
    rfl (Or.inr (Or.inl (by decide)))

/-- C3 (code evaluated at the failing input): on a floating 500 x 400
container well inside the size constraints, a grow of 10 pixels along the
Right edge clamps to a nonzero growth (10, 0), yet `resize_adjust_floating`
returns the failure result with the arena unchanged, because the failure
test reads the origin shifts `grow_x`/`grow_y` — which no branch assigns
for the Right and Bottom edges — instead of the clamped growth amounts. -/
theorem c3_grow_right_always_fails :
    floatingGrow (getCon arenaFloat 0) cnsStd WLR_EDGE_RIGHT 10 = (10, 0)
    ∧ resize_adjust_floating arenaFloat 0 cnsStd WLR_EDGE_RIGHT
        { amount := 10, unit := ResizeUnit.px }
      = ({ status := CmdStatus.invalid, message := some "Cannot resize any further" },
         arenaFloat) := by
  constructor <;> rfl

/-- C4 (counterexample): a `resize set` on a floating hidden-scratchpad
container with a pixel width and a percent height returns a non-Success
result, yet the width of the container has been mutated. -/
theorem c4_counterexample :
    (resize_set_floating arenaHidden 0 cnsStd
        { amount := 500, unit := ResizeUnit.px } { amount := 50, unit := ResizeUnit.ppt }).1.status
      ≠ CmdStatus.success
    ∧ (getCon (resize_set_floating arenaHidden 0 cnsStd
        { amount := 500, unit := ResizeUnit.px } { amount := 50, unit := ResizeUnit.ppt }).2 0).width
      ≠ (getCon arenaHidden 0).width := by
  constructor <;> decide

/-- C4 (amended): when `resize_set_floating` fails on its height amount
(percent height on a hidden scratchpad container) after a nonzero pixel
width amount, it returns Failure with the width block already applied: the
width is set to the clamped target and `x` shifted by half the growth,
while `y`, `height` and every `content` field are still unchanged — the
failure is not all-or-nothing. -/
theorem c4_amended_partial_set (A : Arena) (i : Nat) (cns : FloatingConstraints)
    (w h : ResizeAmount)
    (hwu : w.unit = ResizeUnit.px) (hw : w.amount ≠ 0)
    (hh : h.amount ≠ 0) (hhu : h.unit = ResizeUnit.ppt)
    (hlt : i < A.cons.length)
    (hhid : container_is_scratchpad_hidden A i = true) :
    resize_set_floating A i cns w h
      = ({ status := CmdStatus.failure,
           message := some "Cannot resize a hidden scratchpad container by ppt" },
         updateCon A i (fun c =>
           { c with
             x := c.x - Int.tdiv (max cns.min_width (min w.amount cns.max_width)
                    - (getCon A i).width) 2
             width := max cns.min_width (min w.amount cns.max_width) })) := by
  rcases w with ⟨wa, wu⟩
  rcases h with ⟨ha, hu⟩
  dsimp only at hwu hw hh hhu
  subst hwu hhu
  unfold resize_set_floating setFloatingWidthBlock setFloatingHeightBlock
  dsimp only
  rw [if_pos hw]
  dsimp only
  have hhid1 : container_is_scratchpad_hidden
      (updateCon A i (fun c =>
        { c with
          x := c.x - Int.tdiv (max cns.min_width (min wa cns.max_width) - (getCon A i).width) 2
          width := max cns.min_width (min wa cns.max_width) })) i = true := by
    unfold container_is_scratchpad_hidden
    rw [getCon_updateCon_self _ _ _ hlt]
    exact hhid
  rw [if_pos hh, if_pos hhid1]

/-- Witness for C4 (amended) on the concrete hidden-scratchpad arena. -/
theorem c4_amended_partial_set_witness :
    resize_set_floating arenaHidden 0 cnsStd
        { amount := 500, unit := ResizeUnit.px } { amount := 50, unit := ResizeUnit.ppt }
      = ({ status := CmdStatus.failure,
           message := some "Cannot resize a hidden scratchpad container by ppt" },
         updateCon arenaHidden 0 (fun c =>
           { c with
             x := c.x - Int.tdiv (max cnsStd.min_width (min (500 : Int) cnsStd.max_width)
                    - (getCon arenaHidden 0).width) 2
             width := max cnsStd.min_width (min (500 : Int) cnsStd.max_width) })) := by
  exact c4_amended_partial_set arenaHidden 0 cnsStd
    { amount := 500, unit := ResizeUnit.px } { amount := 50, unit := ResizeUnit.ppt }
    rfl (by decide) (by decide) rfl (by decide) rfl

/-- C5 (confirmed): the resize-parent locator returns exactly the first
member of the ancestor chain (start container included) whose parent layout
is parallel to the axis, which has more than one sibling, which is not the
first sibling exactly when the axis is Top or Left, and not the last
sibling exactly when the axis is Bottom or Right; it returns `none` when no
ancestor qualifies. -/
theorem c5_locator_nearest_qualifying (A : Arena) (c0 axis : Nat) :
    container_find_resize_parent A c0 axis
      = (ancestorChain A (A.cons.length + 1) (some c0)).find?
          (fun j => decide (qualifiesSpec A axis j)) :=
  findResizeParentAux_eq_find A axis (A.cons.length + 1) (some c0)

/-- C6 (confirmed): the sibling-selection block.  On a pair axis: first
sibling gives only the next sibling, last sibling is converted into a
resize of the previous sibling with the sign inverted, and a middle sibling
takes both neighbours, with the sibling amount halved (`amount / 2`,
truncating) exactly when both are present.  On a single-edge axis:
Right/Bottom select the next sibling, Top/Left are converted into a
next-style resize of the previous sibling with the sign inverted. -/
theorem c6_selection (siblings : List Nat) (index c1 : Nat) (amount : Int) :
    (∀ axis, (axis = AXIS_HORIZONTAL ∨ axis = AXIS_VERTICAL) →
      (index = 0 →
        resizeTiledSelect siblings index c1 axis amount
          = some (c1, none, siblings.getD 1 0, amount))
      ∧ (index ≠ 0 → index = siblings.length - 1 →
        resizeTiledSelect siblings index c1 axis amount
          = some (siblings.getD (index - 1) 0, none, c1, -amount))
      ∧ (index ≠ 0 → index ≠ siblings.length - 1 →
        resizeTiledSelect siblings index c1 axis amount
          = some (c1, some (siblings.getD (index - 1) 0), siblings.getD (index + 1) 0, amount)))
    ∧ (∀ axis, (axis = WLR_EDGE_TOP ∨ axis = WLR_EDGE_LEFT) → 0 < index →
        resizeTiledSelect siblings index c1 axis amount
          = some (siblings.getD (index - 1) 0, none, c1, -amount))
    ∧ (∀ axis, (axis = WLR_EDGE_BOTTOM ∨ axis = WLR_EDGE_RIGHT) →
        index < siblings.length - 1 →
        resizeTiledSelect siblings index c1 axis amount
          = some (c1, none, siblings.getD (index + 1) 0, amount))
    ∧ (∀ p a, siblingAmount (some p) a = Int.tdiv a 2)
    ∧ (∀ a, siblingAmount none a = a) := by
  refine ⟨?_, ?_, ?_, fun p a => rfl, fun a => rfl⟩
  · rintro axis (rfl | rfl)
    · refine ⟨fun h0 => ?_, fun h0 hlast => ?_, fun h0 hlast => ?_⟩
      · unfold resizeTiledSelect
        rw [if_pos (Or.inl rfl), if_pos h0]
      · unfold resizeTiledSelect
        rw [if_pos (Or.inl rfl), if_neg h0, if_pos hlast]
      · unfold resizeTiledSelect
        rw [if_pos (Or.inl rfl), if_neg h0, if_neg hlast]
    · refine ⟨fun h0 => ?_, fun h0 hlast => ?_, fun h0 hlast => ?_⟩
      · unfold resizeTiledSelect
        rw [if_pos (Or.inr rfl), if_pos h0]
      · unfold resizeTiledSelect
        rw [if_pos (Or.inr rfl), if_neg h0, if_pos hlast]
      · unfold resizeTiledSelect
        rw [if_pos (Or.inr rfl), if_neg h0, if_neg hlast]
  · rintro axis (rfl | rfl) <;> intro hpos <;>
      · unfold resizeTiledSelect
        rw [if_neg (by decide), if_pos (by decide), if_pos hpos]
  · rintro axis (rfl | rfl) <;> intro hlt <;>
      · unfold resizeTiledSelect
        rw [if_neg (by decide), if_neg (by decide), if_pos hlt]

/-- Witness for C6 covering all five selection cases on a concrete sibling
list. -/
theorem c6_selection_witness :
    resizeTiledSelect [3, 4, 5] 0 3 AXIS_HORIZONTAL 7 = some (3, none, 4, 7)
    ∧ resizeTiledSelect [3, 4, 5] 2 5 AXIS_VERTICAL 7 = some (4, none, 5, -7)
    ∧ resizeTiledSelect [3, 4, 5] 1 4 AXIS_HORIZONTAL 7 = some (4, some 3, 5, 7)
    ∧ resizeTiledSelect [3, 4, 5] 1 4 WLR_EDGE_TOP 7 = some (3, none, 4, -7)
    ∧ resizeTiledSelect [3, 4, 5] 1 4 WLR_EDGE_RIGHT 7 = some (4, none, 5, 7) := by
  refine ⟨?_, ?_, ?_, ?_, ?_⟩
  · exact ((c6_selection [3, 4, 5] 0 3 7).1 AXIS_HORIZONTAL (Or.inl rfl)).1 rfl
  · exact ((c6_selection [3, 4, 5] 2 5 7).1 AXIS_VERTICAL (Or.inr rfl)).2.1
      (by decide) (by decide)
  · exact ((c6_selection [3, 4, 5] 1 4 7).1 AXIS_HORIZONTAL (Or.inl rfl)).2.2
      (by decide) (by decide)
  · exact (c6_selection [3, 4, 5] 1 4 7).2.1 WLR_EDGE_TOP (Or.inl rfl) (by decide)
  · exact (c6_selection [3, 4, 5] 1 4 7).2.2.1 WLR_EDGE_RIGHT (Or.inr rfl) (by decide)

/-- C7 (confirmed): a tiled `resize set` with a Percent or Default width
amount computes the target as `amount` percent of the width of the nearest
horizontal-split ancestor — or of the workspace width when none exists —
and invokes the redistributor along the horizontal pair axis with the delta
from the current width; analogously for height with the nearest
vertical-split ancestor and the vertical pair axis. -/
theorem c7_set_tiled_percent (A : Arena) (i : Nat) (a : Int) (u : ResizeUnit)
    (hu : u = ResizeUnit.ppt ∨ u = ResizeUnit.default) (ha : a ≠ 0) :
    resize_set_tiled A i { amount := a, unit := u } { amount := 0, unit := ResizeUnit.px }
      = ({ status := CmdStatus.success, message := none },
         container_resize_tiled A (some i) AXIS_HORIZONTAL
           ((match findParentOfLayout A SwayLayout.L_HORIZ (A.cons.length + 1)
               (getCon A i).parent with
             | some p => Int.tdiv ((getCon A p).width * a) 100
             | none => Int.tdiv (A.ws.width * a) 100) - (getCon A i).width))
    ∧ resize_set_tiled A i { amount := 0, unit := ResizeUnit.px } { amount := a, unit := u }
      = ({ status := CmdStatus.success, message := none },
         container_resize_tiled A (some i) AXIS_VERTICAL
           ((match findParentOfLayout A SwayLayout.L_VERT (A.cons.length + 1)
               (getCon A i).parent with
             | some p => Int.tdiv ((getCon A p).height * a) 100
             | none => Int.tdiv (A.ws.height * a) 100) - (getCon A i).height)) := by
  have hz : ¬((0 : Int) ≠ 0) := fun hc => hc rfl
  constructor
  · unfold resize_set_tiled
    dsimp only
    rw [if_pos ha, if_pos hu, if_pos hu]
    rw [if_pos rfl, if_neg hz]
  · unfold resize_set_tiled
    dsimp only
    rw [if_neg hz, if_pos ha, if_pos hu, if_pos hu]
    rw [if_pos rfl]

/-- Witness for C7: `resize set width 50 ppt` under an 800-pixel-wide
horizontal-split parent invokes the redistributor with target 400. -/
theorem c7_set_tiled_percent_witness :
    resize_set_tiled arenaSet 0 { amount := 50, unit := ResizeUnit.ppt }
        { amount := 0, unit := ResizeUnit.px }
      = ({ status := CmdStatus.success, message := none },
         container_resize_tiled arenaSet (some 0) AXIS_HORIZONTAL
           (400 - (getCon arenaSet 0).width))
    ∧ Int.tdiv ((getCon arenaSet 2).width * 50) 100 = 400 := by
  refine ⟨?_, by decide⟩
  exact (c7_set_tiled_percent arenaSet 0 50 ResizeUnit.ppt (Or.inl rfl) (by decide)).1

/-- C8 (counterexample): a floating grow whose two candidate amounts both
use Percent returns `CMD_INVALID` (the InvalidUsage kind), not
`CMD_FAILURE`, and so does the at-limit case (here a Bottom-edge floating
grow, whose origin shifts are always zero). -/
theorem c8_counterexample :
    resize_adjust_dispatch arenaFloat 0 cnsStd AXIS_HORIZONTAL
        { amount := 10, unit := ResizeUnit.ppt } { amount := 5, unit := ResizeUnit.ppt }
      = ({ status := CmdStatus.invalid,
           message := some "Floating containers cannot use ppt measurements" }, arenaFloat)
    ∧ CmdStatus.invalid ≠ CmdStatus.failure
    ∧ resize_adjust_floating arenaFloat 0 cnsStd WLR_EDGE_BOTTOM
        { amount := 10, unit := ResizeUnit.px }
      = ({ status := CmdStatus.invalid, message := some "Cannot resize any further" },
         arenaFloat) := by
  refine ⟨rfl, by decide, rfl⟩

/-- C8 (amended): of the three semantically-inapplicable cases, only the
hidden-scratchpad Percent resize returns `CMD_FAILURE`; the floating
both-Percent grow and the at-the-limit case return `CMD_INVALID`.  Each
carries its specific message and leaves the arena unchanged. -/
theorem c8_amended_result_kinds :
    (∀ (A : Arena) (i : Nat) (cns : FloatingConstraints) (axis : Nat)
        (first second : ResizeAmount),
      container_is_floating A i = true →
      first.unit = ResizeUnit.ppt → second.unit = ResizeUnit.ppt →
      resize_adjust_dispatch A i cns axis first second
        = ({ status := CmdStatus.invalid,
             message := some "Floating containers cannot use ppt measurements" }, A))
    ∧ (∀ (A : Arena) (i : Nat) (cns : FloatingConstraints) (w h : ResizeAmount),
      w.amount ≠ 0 → w.unit = ResizeUnit.ppt →
      container_is_scratchpad_hidden A i = true →
      resize_set_floating A i cns w h
        = ({ status := CmdStatus.failure,
             message := some "Cannot resize a hidden scratchpad container by ppt" }, A))
    ∧ (∀ (A : Arena) (i : Nat) (cns : FloatingConstraints) (axis : Nat)
        (am : ResizeAmount),
      floatingGrowOrigin axis (floatingGrow (getCon A i) cns axis am.amount).1
          (floatingGrow (getCon A i) cns axis am.amount).2 = (0, 0) →
      resize_adjust_floating A i cns axis am
        = ({ status := CmdStatus.invalid, message := some "Cannot resize any further" }, A)) := by
  refine ⟨?_, ?_, ?_⟩
  · intro A i cns axis first second hfl hf hs
    rcases first with ⟨fa, fu⟩
    rcases second with ⟨sa, su⟩
    dsimp only at hf hs
    subst hf hs
    unfold resize_adjust_dispatch
    dsimp only
    rw [if_pos hfl, if_neg (fun hc => ResizeUnit.noConfusion hc),
      if_neg (fun hc => ResizeUnit.noConfusion hc),
      if_neg (fun hc => ResizeUnit.noConfusion hc),
      if_neg (fun hc => ResizeUnit.noConfusion hc)]
  · intro A i cns w h hw hwu hhid
    rcases w with ⟨wa, wu⟩
    dsimp only at hw hwu
    subst hwu
    unfold resize_set_floating setFloatingWidthBlock
    dsimp only
    rw [if_pos hw, if_pos hhid]
  · intro A i cns axis am horig
    unfold resize_adjust_floating
    dsimp only
    rw [horig]
    rw [if_pos ⟨rfl, rfl⟩]

/-- Witness for C8 (amended): the three cases at concrete inputs. -/
theorem c8_amended_result_kinds_witness :
    resize_adjust_dispatch arenaPlainFloat 0 cnsStd AXIS_VERTICAL
        { amount := 10, unit := ResizeUnit.ppt } { amount := 5, unit := ResizeUnit.ppt }
      = ({ status := CmdStatus.invalid,
           message := some "Floating containers cannot use ppt measurements" },
         arenaPlainFloat)
    ∧ resize_set_floating arenaHidden 0 cnsStd
        { amount := 50, unit := ResizeUnit.ppt } { amount := 0, unit := ResizeUnit.px }
      = ({ status := CmdStatus.failure,
           message := some "Cannot resize a hidden scratchpad container by ppt" },
         arenaHidden)
    ∧ resize_adjust_floating arenaFloat 0 cnsStd WLR_EDGE_RIGHT
        { amount := 10, unit := ResizeUnit.px }
      = ({ status := CmdStatus.invalid, message := some "Cannot resize any further" },
         arenaFloat) := by
  refine ⟨?_, ?_, ?_⟩
  · exact c8_amended_result_kinds.1 arenaPlainFloat 0 cnsStd AXIS_VERTICAL
      { amount := 10, unit := ResizeUnit.ppt } { amount := 5, unit := ResizeUnit.ppt }
      rfl rfl rfl
  · exact c8_amended_result_kinds.2.1 arenaHidden 0 cnsStd
      { amount := 50, unit := ResizeUnit.ppt } { amount := 0, unit := ResizeUnit.px }
      (by decide) rfl rfl
  · exact c8_amended_result_kinds.2.2 arenaFloat 0 cnsStd WLR_EDGE_RIGHT
      { amount := 10, unit := ResizeUnit.px } (by decide)

/-- C9 (code evaluated at the failing input): `resize set 10 height 50q` on
a floating container parses the height amount with an Invalid unit, yet the
handler returns `CMD_SUCCESS` and mutates the width (400 to 100), because
line 458 of the C source re-checks `width.unit` where `height.unit` was
meant — contradicting the downstream assertion
`sway_assert(false, "invalid height unit")`. -/
theorem c9_invalid_height_unit_slips :
    (cmd_resize_set arenaPlainFloat 0 cnsStd ["10", "height", "50q"]).1
      = { status := CmdStatus.success, message := none }
    ∧ (getCon (cmd_resize_set arenaPlainFloat 0 cnsStd ["10", "height", "50q"]).2 0).width = 100
    ∧ (getCon arenaPlainFloat 0).width = 400
    ∧ (parse_resize_amount ["50q"]).1.unit = ResizeUnit.invalid := by
  refine ⟨by decide, by decide, by decide, by decide⟩

/-- C10 (confirmed): in a tiled grow or shrink, a Default unit is treated
exactly like Percent, and a Percent amount is converted to pixels as
`amount / 100` of the target container itself — its own width for
horizontal axes, its own height for vertical axes — before the
redistributor runs. -/
theorem c10_tiled_percent_own_size (A : Arena) (i axis : Nat) (a : Int) :
    resize_adjust_tiled A i axis { amount := a, unit := ResizeUnit.default }
      = resize_adjust_tiled A i axis { amount := a, unit := ResizeUnit.ppt }
    ∧ resize_adjust_tiled A i axis { amount := a, unit := ResizeUnit.ppt }
      = resizeAdjustTiledGo A i axis
          (if is_horizontal axis then pptToPx (getCon A i).width a
           else pptToPx (getCon A i).height a) := by
  constructor <;> rfl

end SwayResize
